import Mathlib

/-!
Shallow embedding of the vmark MCP automation bridge
(`src-tauri/src/mcp_bridge.rs` and `src-tauri/src/mcp_server.rs`).

The bridge's shared mutable state (`BridgeState` behind a `tokio::sync::Mutex`)
is modelled as an explicit state value threaded through the operations.
`HashMap` fields are modelled as association lists with `HashMap` semantics
(`insert` replaces an existing binding for the same key; `remove` deletes it).
Channel sends to waiters / clients are modelled as effect values returned
alongside the new state; a `oneshot` sender whose receiver was dropped is a
waiter with `waiterAlive = false`, and sending on it fails.
Asynchronous awaiting (the `tokio::time::timeout(10s, response_rx)` in
`handle_message`) is modelled by an `AwaitOutcome` parameter describing what
the await observed: a response, a closed channel, or expiry of the timeout.
-/

namespace VMark

/-- A JSON value, standing in for `serde_json::Value`.  Objects are
association lists of fields (serde's map has unique keys). -/
inductive Json where
  | null
  | bool (b : Bool)
  | num (n : Int)
  | str (s : String)
  | arr (elems : List Json)
  | obj (fields : List (String × Json))
deriving Repr, BEq

/-- `WsMessage`: the wire envelope `{ id, type, payload }` from `mcp_bridge.rs`. -/
structure WsMessage where
  id : String
  msg_type : String
  payload : Json
deriving Repr, BEq

/-- `McpRequest`: parsed inner request `{request_type, args}`. -/
structure McpRequest where
  request_type : String
  args : Json
deriving Repr, BEq

/-- `McpResponse`: `{ success, data?, error? }` sent back to the sidecar. -/
structure McpResponse where
  success : Bool
  data : Option Json
  error : Option String
deriving Repr, BEq

/-- `McpRequestEvent`: the forwarding notification emitted to the frontend
collaborator (`app.emit("mcp-bridge:request", ...)`). -/
structure McpRequestEvent where
  id : String
  request_type : String
  args : Json
deriving Repr, BEq

/-- `McpResponsePayload`: the frontend's answer `{id, success, data?, error?}`
passed to the `mcp_bridge_respond` command. -/
structure McpResponsePayload where
  id : String
  success : Bool
  data : Option Json
  error : Option String
deriving Repr, BEq

/-- Lookup of a field of a JSON object (`obj.get(key)` on a `serde_json::Map`). -/
def Json.getField : Json → String → Option Json
  | .obj fields, k => fields.lookup k
  | _, _ => none

/-- `McpRequest::from_value`: requires an object with a string `type` field;
all other fields become the `args` object, in order, exactly as the Rust
loop over `obj.iter()` skipping the `type` key builds them. -/
def McpRequest.from_value (value : Json) : Except String McpRequest :=
  match value with
  | .obj fields =>
    match fields.lookup "type" with
    | some (.str t) =>
        .ok { request_type := t
              args := .obj (fields.filter (fun p => p.1 ≠ "type")) }
    | _ => .error "Request must have a 'type' field"
  | _ => .error "Request must be an object"

/-- `ClientIdentity`: identity info from an `identify` envelope; only `name`
is required by the serde derive. -/
structure ClientIdentity where
  name : String
  version : Option String
  pid : Option Nat
  parent_process : Option String
deriving Repr, BEq

/-- Parse of an `identify` payload (`serde_json::from_value::<ClientIdentity>`):
succeeds exactly when the payload is an object with a string `name` field. -/
def parseIdentity (payload : Json) : Option ClientIdentity :=
  match payload.getField "name" with
  | some (.str n) =>
      some { name := n
             version := match payload.getField "version" with
                        | some (.str v) => some v
                        | _ => none
             pid := match payload.getField "pid" with
                    | some (.num p) => if p < 0 then none else some p.toNat
                    | _ => none
             parent_process := match payload.getField "parentProcess" with
                               | some (.str s) => some s
                               | _ => none }
  | _ => none

/-- `ClientConnection`: one registry entry.  `txAlive` models whether the
unbounded outbound channel's receiver (the writer task) is still alive;
`shutdown` is `true` while the oneshot shutdown sender is still held
(`Option<oneshot::Sender<()>>` not yet taken). -/
structure ClientConnection where
  id : Nat
  txAlive : Bool
  shutdown : Bool
  identity : Option ClientIdentity
deriving Repr, BEq

/-- `PendingRequest`: a pending-table entry.  `waiterAlive` models whether the
`oneshot::Sender<McpResponse>`'s receiver is still alive (the handler is
still awaiting); `client_id` is the owning connection. -/
structure PendingRequest where
  waiterAlive : Bool
  client_id : Nat
deriving Repr, BEq

/-- Association-list model of `HashMap::insert`: replaces the binding of an
existing key, otherwise adds a new one. -/
def mapInsert {κ α : Type} [DecidableEq κ] : List (κ × α) → κ → α → List (κ × α)
  | [], k, v => [(k, v)]
  | (k', v') :: rest, k, v =>
      if k' = k then (k, v) :: rest else (k', v') :: mapInsert rest k v

/-- Association-list model of `HashMap::remove` (the removed map). -/
def mapRemove {κ α : Type} [DecidableEq κ] (m : List (κ × α)) (k : κ) :
    List (κ × α) :=
  m.filter (fun p => p.1 ≠ k)

/-- `BridgeState`: the shared state behind the global `BRIDGE_STATE` mutex. -/
structure BridgeState where
  clients : List (Nat × ClientConnection)
  pending : List (String × PendingRequest)
  next_client_id : Nat
deriving Repr, BEq

/-- The initial bridge state built by `get_bridge_state`'s `get_or_init`:
empty maps, client-id counter seeded at 1. -/
def initialBridgeState : BridgeState :=
  { clients := [], pending := [], next_client_id := 1 }

/-- `is_read_only_operation`: the static allow-list from `mcp_bridge.rs`. -/
def is_read_only_operation (request_type : String) : Bool :=
  match request_type with
  | "document.getContent" => true
  | "document.search" => true
  | "selection.get" => true
  | "cursor.getContext" => true
  | "outline.get" => true
  | "metadata.get" => true
  | "windows.list" => true
  | "windows.getFocused" => true
  | "workspace.getDocumentInfo" => true
  | "tabs.list" => true
  | "tabs.getActive" => true
  | "tabs.getInfo" => true
  | "editor.getUndoState" => true
  | "suggestion.list" => true
  | _ => false

/-- The fourteen request types of the `matches!` allow-list, as a list. -/
def readOnlyOperations : List String :=
  [ "document.getContent", "document.search", "selection.get",
    "cursor.getContext", "outline.get", "metadata.get", "windows.list",
    "windows.getFocused", "workspace.getDocumentInfo", "tabs.list",
    "tabs.getActive", "tabs.getInfo", "editor.getUndoState",
    "suggestion.list" ]

/-- The client-registration block of `handle_connection` (lines 371–390):
take the current counter value as the new id, bump the counter, insert a
fresh `ClientConnection` (live channel, shutdown sender held, no identity). -/
def registerClient (s : BridgeState) : Nat × BridgeState :=
  let client_id := s.next_client_id
  (client_id,
   { s with
     next_client_id := s.next_client_id + 1
     clients := mapInsert s.clients client_id
       { id := client_id, txAlive := true, shutdown := true, identity := none } })

/-- The cleanup block at the end of `handle_connection`: `clients.remove(&client_id)`. -/
def removeClient (s : BridgeState) (client_id : Nat) : BridgeState :=
  { s with clients := mapRemove s.clients client_id }

/-- What the `tokio::time::timeout(Duration::from_secs(10), response_rx)` await
in `handle_message` observed: `received r` is `Ok(Ok(r))`, `channelClosed` is
`Ok(Err(_))` (the sender was dropped unfired), `timeout` is `Err(_)` (the
10-second deadline elapsed first). -/
inductive AwaitOutcome where
  | received (r : McpResponse)
  | channelClosed
  | timeout
deriving Repr, BEq

/-- The fixed wait bound used by `handle_message`:
`Duration::from_secs(10)`. -/
def REQUEST_TIMEOUT_SECS : Nat := 10

/-- `AwaitOutcome` derived from when (in seconds after forwarding) the
collaborator resolves the waiter: resolution strictly before the deadline is
received, anything else — including a collaborator that never answers
(`none`) — is a timeout. -/
def awaitOutcomeOf (answerAt : Option (Nat × McpResponse)) : AwaitOutcome :=
  match answerAt with
  | some (t, r) => if t < REQUEST_TIMEOUT_SECS then .received r else .timeout
  | none => .timeout

/-- Environment of one `handle_message` call: whether `app.emit` succeeds, and
what the response await observes. -/
structure HandleEnv where
  emitOk : Bool
  outcome : AwaitOutcome
deriving Repr, BEq

/-- Observable effects of one `handle_message` call. -/
structure HandleEffects where
  /-- the write lock was acquired (`Some(write_lock.lock().await)`) -/
  acquiredGate : Bool
  /-- forwarding notification emitted to the collaborator -/
  emitted : Option McpRequestEvent
  /-- envelopes pushed onto this client's outbound channel -/
  sentToClient : List WsMessage
deriving Repr, BEq

/-- No-effect value. -/
def HandleEffects.none : HandleEffects :=
  { acquiredGate := false, emitted := Option.none, sentToClient := [] }

/-- The `response` envelope `handle_message` pushes back to the client: the
original correlation id, type `response`, and the serde serialization of the
`McpResponse` (skipping absent `data`/`error`). -/
def responseEnvelope (id : String) (response : McpResponse) : WsMessage :=
  { id := id, msg_type := "response"
    payload := .obj
      ([("success", Json.bool response.success)] ++
       (match response.data with
        | some d => [("data", d)]
        | Option.none => []) ++
       (match response.error with
        | some e => [("error", Json.str e)]
        | Option.none => [])) }

/-- `handle_message` (mcp_bridge.rs lines 480–617), from the decoded envelope
on: identify handling, non-request no-op, inner-request parse, read/write
classification, pending-table insert, forwarding emit, awaiting the response
with the 10-second timeout, and pushing the `response` envelope to the
client's channel.  The JSON string decode that precedes it in the source
(`serde_json::from_str`) is upstream of this model; a frame that fails to
decode never reaches these steps.  The write-lock guard is scoped to the
call: it is dropped on every return path, which the transition system below
models step by step. -/
def handle_message (s : BridgeState) (msg : WsMessage) (client_id : Nat)
    (env : HandleEnv) : Except String Unit × BridgeState × HandleEffects :=
  if msg.msg_type = "identify" then
    match parseIdentity msg.payload with
    | some identity =>
      match s.clients.lookup client_id with
      | some client =>
        let client1 := { client with identity := some identity }
        (.ok (),
         { s with clients := mapInsert s.clients client_id client1 },
         HandleEffects.none)
      | none => (.ok (), s, HandleEffects.none)
    | none => (.ok (), s, HandleEffects.none)
  else if msg.msg_type ≠ "request" then
    (.ok (), s, HandleEffects.none)
  else
    match McpRequest.from_value msg.payload with
    | .error e => (.error e, s, HandleEffects.none)
    | .ok request =>
      let is_read := is_read_only_operation request.request_type
      match s.clients.lookup client_id with
      | none => (.error "Client not found", s, HandleEffects.none)
      | some client =>
        let acquired := !is_read
        let request_id := msg.id
        let entry : PendingRequest := { waiterAlive := true, client_id := client_id }
        let s1 := { s with pending := mapInsert s.pending request_id entry }
        if !env.emitOk then
          (.error "Failed to emit event",
           { s1 with pending := mapRemove s1.pending request_id },
           { acquiredGate := acquired, emitted := Option.none, sentToClient := [] })
        else
          let event : McpRequestEvent :=
            { id := request_id, request_type := request.request_type
              args := request.args }
          match env.outcome with
          | .channelClosed =>
            (.error "Response channel closed",
             { s1 with pending := mapRemove s1.pending request_id },
             { acquiredGate := acquired, emitted := some event, sentToClient := [] })
          | .timeout =>
            (.error "Request timeout",
             { s1 with pending := mapRemove s1.pending request_id },
             { acquiredGate := acquired, emitted := some event, sentToClient := [] })
          | .received response =>
            let ws_response := responseEnvelope msg.id response
            if client.txAlive then
              (.ok (), s1,
               { acquiredGate := acquired, emitted := some event
                 sentToClient := [ws_response] })
            else
              (.error "Failed to send response", s1,
               { acquiredGate := acquired, emitted := some event, sentToClient := [] })

/-- Effects of `stop_bridge`: which client ids had their shutdown signal fired,
and which waiters were delivered the rejection response (keyed by correlation
id). -/
structure StopEffects where
  shutdownSignals : List Nat
  rejections : List (String × McpResponse)
deriving Repr, BEq

/-- The response `stop_bridge` sends to every drained pending waiter. -/
def bridgeStoppedResponse : McpResponse :=
  { success := false, data := none, error := some "Bridge stopped" }

/-- `stop_bridge` (mcp_bridge.rs lines 319–350) restricted to the shared
bridge state: drain `clients`, firing each held shutdown sender; drain
`pending`, sending every waiter the `Bridge stopped` rejection (delivered
when the receiver is still alive; the send result is ignored either way).
The port-file removal and the accept-loop shutdown signal are handled at the
lifecycle layer below. -/
def stop_bridge (s : BridgeState) : BridgeState × StopEffects :=
  ({ s with clients := [], pending := [] },
   { shutdownSignals := (s.clients.filter (fun p => p.2.shutdown)).map (·.1)
     rejections := (s.pending.filter (fun p => p.2.waiterAlive)).map
       (fun p => (p.1, bridgeStoppedResponse)) })

/-- `mcp_bridge_respond` (mcp_bridge.rs lines 621–638): remove the pending
entry for `payload.id` if present and fire its oneshot sender with the
response; a send on a dropped receiver maps to `Err("Response channel
closed")`; a missing entry is `Ok(())` with nothing else done.  The third
component is the delivery effect: the correlation id and response actually
handed to a live waiter. -/
def mcp_bridge_respond (s : BridgeState) (payload : McpResponsePayload) :
    Except String Unit × BridgeState × Option (String × McpResponse) :=
  let removed := s.pending.lookup payload.id
  let s1 := { s with pending := mapRemove s.pending payload.id }
  match removed with
  | none => (.ok (), s1, none)
  | some pr =>
    let response : McpResponse :=
      { success := payload.success, data := payload.data, error := payload.error }
    if pr.waiterAlive then
      (.ok (), s1, some (payload.id, response))
    else
      (.error "Response channel closed", s1, none)

/-- The filesystem as far as the bridge touches it: the content of the single
discovery file at the fixed path `~/.vmark/mcp-port` (`none` = absent). -/
def PortFile : Type := Option String

/-- Fallible-environment flags for the filesystem calls in `write_port_file`:
whether the home directory can be determined, whether `create_dir_all`
succeeds, whether `fs::write` succeeds. -/
structure FsEnv where
  homeDirOk : Bool
  createDirOk : Bool
  writeOk : Bool
deriving Repr, BEq

/-- `write_port_file` (mcp_bridge.rs lines 201–218): resolve the path, create
the parent directory, then `fs::write` the decimal text of the port —
truncating/overwriting, never appending.  On any failure the file content is
left as it was (modulo partial writes, which the claims do not touch). -/
def write_port_file (env : FsEnv) (_file : PortFile) (port : Nat) :
    Except String PortFile :=
  if !env.homeDirOk then .error "Cannot determine home directory"
  else if !env.createDirOk then .error "Failed to create ~/.vmark directory"
  else if !env.writeOk then .error "Failed to write port file"
  else .ok (some (toString port))

/-- `remove_port_file` (mcp_bridge.rs lines 221–227): best-effort delete,
absence is not an error. -/
def remove_port_file (_file : PortFile) : PortFile :=
  none

/-- `start_bridge` (mcp_bridge.rs lines 259–316) up to spawning the accept
loop: bind to port 0 (`bindResult` is the OS-assigned port, `none` a bind
failure), then publish the port via `write_port_file`; any failure aborts the
start with the file untouched and the error propagated.  Returns the actual
port together with the new discovery-file content. -/
def start_bridge (env : FsEnv) (file : PortFile) (bindResult : Option Nat) :
    Except String (Nat × PortFile) :=
  match bindResult with
  | none => .error "Failed to bind to 127.0.0.1:0"
  | some actual_port =>
    match write_port_file env file actual_port with
    | .error e => .error e
    | .ok file1 => .ok (actual_port, file1)

/-- `McpServerStatus` from `mcp_server.rs`. -/
structure McpServerStatus where
  running : Bool
  port : Option Nat
  local_sidecar : Bool
deriving Repr, BEq

/-- The process-level flags of `mcp_server.rs`: `BRIDGE_RUNNING` and
`BRIDGE_PORT`. -/
structure ServerState where
  bridgeRunning : Bool
  bridgePort : Option Nat
deriving Repr, BEq

/-- `mcp_bridge_start` (mcp_server.rs lines 47–82).  If `BRIDGE_RUNNING` is
already set, return the stored port (falling back to the argument) without
touching the bridge, the listener, or the discovery file.  Otherwise run
`start_bridge`; on success set the flags; on failure propagate the error with
the flags and file untouched. -/
def mcp_bridge_start (st : ServerState) (env : FsEnv) (file : PortFile)
    (bindResult : Option Nat) (port : Nat) :
    Except String McpServerStatus × ServerState × PortFile :=
  if st.bridgeRunning then
    (.ok { running := true, port := some (st.bridgePort.getD port)
           local_sidecar := false },
     st, file)
  else
    match start_bridge env file bindResult with
    | .error e => (.error e, st, file)
    | .ok (actual_port, file1) =>
      (.ok { running := true, port := some actual_port, local_sidecar := false },
       { bridgeRunning := true, bridgePort := some actual_port },
       file1)

/-- `mcp_bridge_stop` (mcp_server.rs lines 86–113) composed with
`stop_bridge` (which removes the port file first, then drains the bridge
state): clears the running flag and the stored port, returns the stopped
status. -/
def mcp_bridge_stop (_st : ServerState) (bs : BridgeState) (file : PortFile) :
    McpServerStatus × ServerState × BridgeState × PortFile × StopEffects :=
  let file1 := remove_port_file file
  let (bs1, eff) := stop_bridge bs
  ({ running := false, port := none, local_sidecar := false },
   { bridgeRunning := false, bridgePort := none },
   bs1, file1, eff)

/-! ### Registration sequences (for the identifier-uniqueness property)

`handle_connection` registers on accept and removes on close; any
interleaving of those two state changes on the shared `BridgeState` is a
sequence of `RegOp`s. -/

/-- One registry-affecting operation. -/
inductive RegOp where
  | register
  | remove (id : Nat)
deriving Repr, BEq

/-- Apply one operation; `register` yields the assigned id. -/
def applyRegOp (s : BridgeState) : RegOp → BridgeState × Option Nat
  | .register => let (cid, s1) := registerClient s; (s1, some cid)
  | .remove id => (removeClient s id, none)

/-- Run a sequence of operations, collecting the assigned ids in order. -/
def runRegOps (s : BridgeState) : List RegOp → BridgeState × List Nat
  | [] => (s, [])
  | op :: ops =>
    let (s1, r) := applyRegOp s op
    let (s2, rest) := runRegOps s1 ops
    (s2, r.toList ++ rest)

/-- Number of `register` operations in a sequence. -/
def countRegisters (ops : List RegOp) : Nat :=
  (ops.filter (fun op => op == RegOp.register)).length

/-! ### Interleaving model of the write gate

`handle_message` holds the global `tokio::sync::Mutex` write guard from
`write_lock.lock().await` until the function returns — the guard is dropped
on the response path, the timeout path and every error path alike.  The
transition system below has one task per in-flight request; a write-classified
task must acquire the free lock before entering its mutating phase (pending
insert, forward, await, respond) and releases it on completion; a
read-classified task never touches the lock — none of its transitions
mentions the lock at all. -/

/-- Phase of one in-flight request task. -/
inductive Phase where
  /-- about to classify the parsed request -/
  | classify
  /-- write-classified, parked on `write_lock.lock().await` -/
  | waitGate
  /-- write-classified, holding the guard: the mutating phase -/
  | critical
  /-- read-classified, in flight with no guard -/
  | reading
  /-- `handle_message` returned (any path); guard dropped if held -/
  | done
deriving Repr, DecidableEq

/-- One task: its classification and current phase. -/
structure GateTask where
  isRead : Bool
  phase : Phase
deriving Repr, DecidableEq

/-- The gate-relevant system state: the `WRITE_LOCK` holder and all tasks. -/
structure GateSys where
  lock : Option Nat
  tasks : List (Nat × GateTask)
deriving Repr, DecidableEq

/-- Initial system for a given population of tasks (`true` = read-classified),
all about to classify, lock free. -/
def initGateSys (spec : List (Nat × Bool)) : GateSys :=
  { lock := none
    tasks := spec.map (fun p => (p.1, { isRead := p.2, phase := Phase.classify })) }

/-- Interleaving steps.  Read-task steps carry no condition on `lock` and do
not change it: reads never touch the gate. -/
inductive GateStep : GateSys → GateSys → Prop where
  | classifyRead (s : GateSys) (t : Nat) (task : GateTask) :
      s.tasks.lookup t = some task → task.isRead = true →
      task.phase = Phase.classify →
      GateStep s { s with
        tasks := mapInsert s.tasks t { task with phase := Phase.reading } }
  | classifyWrite (s : GateSys) (t : Nat) (task : GateTask) :
      s.tasks.lookup t = some task → task.isRead = false →
      task.phase = Phase.classify →
      GateStep s { s with
        tasks := mapInsert s.tasks t { task with phase := Phase.waitGate } }
  | acquire (s : GateSys) (t : Nat) (task : GateTask) :
      s.tasks.lookup t = some task → task.phase = Phase.waitGate →
      s.lock = none →
      GateStep s { lock := some t
                   tasks := mapInsert s.tasks t { task with phase := Phase.critical } }
  | releaseWrite (s : GateSys) (t : Nat) (task : GateTask) :
      s.tasks.lookup t = some task → task.phase = Phase.critical →
      s.lock = some t →
      GateStep s { lock := none
                   tasks := mapInsert s.tasks t { task with phase := Phase.done } }
  | finishRead (s : GateSys) (t : Nat) (task : GateTask) :
      s.tasks.lookup t = some task → task.phase = Phase.reading →
      GateStep s { s with
        tasks := mapInsert s.tasks t { task with phase := Phase.done } }

/-- Reachability from a state by interleaving steps. -/
def GateReachable (s0 s : GateSys) : Prop :=
  Relation.ReflTransGen GateStep s0 s

/-- Task `t` is in its mutating phase. -/
def inCritical (s : GateSys) (t : Nat) : Prop :=
  ∃ task, s.tasks.lookup t = some task ∧ task.phase = Phase.critical

/-- The safety invariant: whoever is in the mutating phase holds the lock. -/
def GateInv (s : GateSys) : Prop :=
  ∀ t task, s.tasks.lookup t = some task → task.phase = Phase.critical →
    s.lock = some t

/-- Converse invariant: the lock, when held, is held by a task that is in its
mutating phase. -/
def LockHolderCritical (s : GateSys) : Prop :=
  ∀ t, s.lock = some t →
    ∃ task, s.tasks.lookup t = some task ∧ task.phase = Phase.critical

/-- Read-classified tasks never wait for or hold the gate. -/
def ReadInv (s : GateSys) : Prop :=
  ∀ t task, s.tasks.lookup t = some task → task.isRead = true →
    task.phase ≠ Phase.waitGate ∧ task.phase ≠ Phase.critical

/-- The combined inductive invariant of the gate system. -/
def GateSysInv (s : GateSys) : Prop :=
  GateInv s ∧ LockHolderCritical s ∧ ReadInv s

/-! ### Concrete example inputs for witnesses and counterexamples -/

/-- A live registered connection with id 1. -/
def exClient : ClientConnection :=
  { id := 1, txAlive := true, shutdown := true, identity := none }

/-- A live registered connection with id 2. -/
def exClient2 : ClientConnection :=
  { id := 2, txAlive := true, shutdown := true, identity := none }

/-- Bridge state with the single registered connection 1. -/
def exState1 : BridgeState :=
  { clients := [(1, exClient)], pending := [], next_client_id := 2 }

/-- Bridge state with connections 1 and 2 and a pending request with
correlation id `"1"` owned by connection 1 (its waiter alive). -/
def exStateDup : BridgeState :=
  { clients := [(1, exClient), (2, exClient2)]
    pending := [("1", { waiterAlive := true, client_id := 1 })]
    next_client_id := 3 }

/-- Bridge state with connections 1 and 2 and pending requests `"a"`
(connection 1) and `"b"` (connection 2), both waiters alive. -/
def exStateStop : BridgeState :=
  { clients := [(1, exClient), (2, exClient2)]
    pending := [("a", { waiterAlive := true, client_id := 1 }),
                ("b", { waiterAlive := true, client_id := 2 })]
    next_client_id := 3 }

/-- Bridge state with connection 1 and one pending request `"x"` whose
waiter's receiver has been dropped. -/
def exStateDeadWaiter : BridgeState :=
  { clients := [(1, exClient)]
    pending := [("x", { waiterAlive := false, client_id := 1 })]
    next_client_id := 2 }

/-- The spec's scenario request: `{id:"1", type:"request",
payload:{type:"document.getContent"}}`. -/
def exReqMsg : WsMessage :=
  { id := "1", msg_type := "request"
    payload := Json.obj [("type", Json.str "document.getContent")] }

/-- A write-classified request envelope with correlation id `"1"`. -/
def exWriteMsg : WsMessage :=
  { id := "1", msg_type := "request"
    payload := Json.obj [("type", Json.str "selection.replace")] }

/-- A successful collaborator response. -/
def exOkResponse : McpResponse :=
  { success := true, data := some (Json.str "# Hello"), error := none }

/-- Environment where the emit succeeds and the collaborator answers. -/
def exEnvOk : HandleEnv :=
  { emitOk := true, outcome := .received exOkResponse }

/-- Environment where the emit succeeds and the collaborator never
answers — the 10-second timeout expires. -/
def exEnvTimeout : HandleEnv :=
  { emitOk := true, outcome := .timeout }

/-- A frontend response payload for correlation id `"1"`. -/
def exRespond1 : McpResponsePayload :=
  { id := "1", success := true, data := some (Json.str "ok"), error := none }

/-- A frontend response payload for correlation id `"x"`. -/
def exRespondX : McpResponsePayload :=
  { id := "x", success := true, data := none, error := none }

/-- Two concurrent write-classified tasks. -/
def exGateSpec : List (Nat × Bool) := [(0, false), (1, false)]

/-- Their initial gate system. -/
def exGate0 : GateSys := initGateSys exGateSpec

/-- After task 0 classifies as a write. -/
def exGate1 : GateSys :=
  { exGate0 with
    tasks := mapInsert exGate0.tasks 0 { isRead := false, phase := Phase.waitGate } }

/-- After task 0 acquires the gate: its mutating phase. -/
def exGate2 : GateSys :=
  { lock := some 0
    tasks := mapInsert exGate1.tasks 0 { isRead := false, phase := Phase.critical } }

/-- After task 0's `handle_message` returns (e.g. on the timeout path),
dropping the guard. -/
def exGate3 : GateSys :=
  { lock := none
    tasks := mapInsert exGate2.tasks 0 { isRead := false, phase := Phase.done } }

/-! ### Association-map lemmas -/

theorem lookup_cons {κ α : Type} [DecidableEq κ] (pk : κ) (pv : α)
    (rest : List (κ × α)) (k' : κ) :
    ((pk, pv) :: rest).lookup k' = if k' = pk then some pv else rest.lookup k' := by
  simp only [List.lookup]
  by_cases h : k' = pk
  · subst h
    simp
  · have hb : (k' == pk) = false := beq_eq_false_iff_ne.mpr h
    rw [hb, if_neg h]

theorem mapRemove_cons {κ α : Type} [DecidableEq κ] (pk : κ) (pv : α)
    (rest : List (κ × α)) (k : κ) :
    mapRemove ((pk, pv) :: rest) k =
      if pk = k then mapRemove rest k else (pk, pv) :: mapRemove rest k := by
  by_cases h : pk = k <;> simp [mapRemove, List.filter, h]

theorem lookup_mapInsert {κ α : Type} [DecidableEq κ]
    (m : List (κ × α)) (k k' : κ) (v : α) :
    (mapInsert m k v).lookup k' = if k' = k then some v else m.lookup k' := by
  induction m with
  | nil =>
    rw [show mapInsert ([] : List (κ × α)) k v = [(k, v)] from rfl, lookup_cons]
  | cons p rest ih =>
    obtain ⟨pk, pv⟩ := p
    by_cases hpk : pk = k
    · subst hpk
      rw [mapInsert, if_pos rfl, lookup_cons, lookup_cons]
      by_cases hk' : k' = pk <;> simp [hk']
    · rw [mapInsert, if_neg hpk, lookup_cons, lookup_cons, ih]
      by_cases hk' : k' = pk
      · subst hk'
        have hne : ¬ k' = k := fun h => hpk (h ▸ rfl)
        simp [hne]
      · simp [hk']

theorem lookup_mapRemove {κ α : Type} [DecidableEq κ]
    (m : List (κ × α)) (k k' : κ) :
    (mapRemove m k).lookup k' = if k' = k then none else m.lookup k' := by
  induction m with
  | nil => simp [mapRemove, List.lookup]
  | cons p rest ih =>
    obtain ⟨pk, pv⟩ := p
    rw [mapRemove_cons]
    by_cases hpk : pk = k
    · subst hpk
      rw [if_pos rfl, ih, lookup_cons]
      by_cases hk' : k' = pk <;> simp [hk']
    · rw [if_neg hpk, lookup_cons, lookup_cons, ih]
      by_cases hk' : k' = pk
      · subst hk'
        have hne : ¬ k' = k := fun h => hpk (h ▸ rfl)
        simp [hne]
      · simp [hk']

theorem mapRemove_eq_of_lookup_none {κ α : Type} [DecidableEq κ]
    (m : List (κ × α)) (k : κ) (h : m.lookup k = none) :
    mapRemove m k = m := by
  induction m with
  | nil => rfl
  | cons p rest ih =>
    obtain ⟨pk, pv⟩ := p
    rw [lookup_cons] at h
    by_cases hk : k = pk
    · simp [hk] at h
    · rw [if_neg hk] at h
      have hpk : ¬ pk = k := fun hp => hk (hp ▸ rfl)
      rw [mapRemove_cons, if_neg hpk, ih h]

/-! ### Reduction lemma for the request path of `handle_message` -/

/-- On the request path (a `request` envelope whose payload parses and whose
client is registered), `handle_message` acquires the write gate exactly when
the parsed request type is not on the read-only allow-list — on every
outcome branch. -/
theorem handle_message_acquiredGate (s : BridgeState) (msg : WsMessage)
    (client_id : Nat) (env : HandleEnv) (request : McpRequest)
    (client : ClientConnection)
    (hty : msg.msg_type = "request")
    (hparse : McpRequest.from_value msg.payload = .ok request)
    (hclient : s.clients.lookup client_id = some client) :
    (handle_message s msg client_id env).2.2.acquiredGate
      = !is_read_only_operation request.request_type := by
  unfold handle_message
  rw [hty, if_neg (show ¬ ("request" : String) = "identify" by decide),
      if_neg (show ¬ ("request" : String) ≠ "request" by decide), hparse, hclient]
  cases henv : env.emitOk
  · simp
  · cases houtcome : env.outcome <;> cases htx : client.txAlive <;> simp [htx]

/-- C6: `is_read_only` classifies a request type as read-only exactly when it
is on the static allow-list; on the request path the write gate is acquired
exactly for types not on the list; and `document.getContent` in particular is
classified read-only, so a `document.getContent` request is forwarded with no
gate acquisition. -/
theorem c6_read_only_allow_list :
    (∀ t : String, is_read_only_operation t = true ↔ t ∈ readOnlyOperations) ∧
    (∀ (s : BridgeState) (msg : WsMessage) (client_id : Nat) (env : HandleEnv)
       (request : McpRequest) (client : ClientConnection),
       msg.msg_type = "request" →
       McpRequest.from_value msg.payload = .ok request →
       s.clients.lookup client_id = some client →
       (handle_message s msg client_id env).2.2.acquiredGate
         = !is_read_only_operation request.request_type) ∧
    is_read_only_operation "document.getContent" = true := by
  refine ⟨?_, ?_, rfl⟩
  · intro t
    constructor
    · intro h
      unfold is_read_only_operation at h
      split at h <;> simp_all [readOnlyOperations]
    · intro h
      simp only [readOnlyOperations, List.mem_cons, List.not_mem_nil,
        or_false] at h
      rcases h with h | h | h | h | h | h | h | h | h | h | h | h | h | h <;>
        (subst h; rfl)
  · intro s msg client_id env request client hty hparse hclient
    exact handle_message_acquiredGate s msg client_id env request client
      hty hparse hclient

/-- Witness for C6 at the spec's scenario inputs: `document.getContent` is
read-only, on the allow-list, and its request is handled with no gate
acquisition. -/
theorem c6_read_only_allow_list_witness :
    is_read_only_operation "document.getContent" = true ∧
    "document.getContent" ∈ readOnlyOperations ∧
    (handle_message exState1 exReqMsg 1 exEnvOk).2.2.acquiredGate
      = !is_read_only_operation "document.getContent" :=
  ⟨c6_read_only_allow_list.2.2,
   (c6_read_only_allow_list.1 "document.getContent").mp rfl,
   c6_read_only_allow_list.2.1 exState1 exReqMsg 1 exEnvOk
     ⟨"document.getContent", Json.obj []⟩ exClient rfl rfl rfl⟩

/-- C3: resolving a correlation id with no live pending entry — in particular
resolving the same id a second time — is accepted (`Ok`), changes nothing in
the bridge state and delivers nothing; only the first resolution delivers the
result to the waiter and removes the entry. -/
theorem c3_resolve_idempotent :
    (∀ (s : BridgeState) (payload : McpResponsePayload),
       s.pending.lookup payload.id = none →
       mcp_bridge_respond s payload = (.ok (), s, none)) ∧
    (∀ (s : BridgeState) (payload : McpResponsePayload) (pr : PendingRequest),
       s.pending.lookup payload.id = some pr → pr.waiterAlive = true →
       mcp_bridge_respond s payload =
         (.ok (), { s with pending := mapRemove s.pending payload.id },
          some (payload.id,
            { success := payload.success, data := payload.data
              error := payload.error })) ∧
       ((mcp_bridge_respond s payload).2.1).pending.lookup payload.id = none) ∧
    (∀ (s : BridgeState) (payload : McpResponsePayload) (pr : PendingRequest),
       s.pending.lookup payload.id = some pr → pr.waiterAlive = true →
       mcp_bridge_respond ((mcp_bridge_respond s payload).2.1) payload
         = (.ok (), (mcp_bridge_respond s payload).2.1, none)) := by
  have hnone : ∀ (s : BridgeState) (payload : McpResponsePayload),
      s.pending.lookup payload.id = none →
      mcp_bridge_respond s payload = (.ok (), s, none) := by
    intro s payload h
    unfold mcp_bridge_respond
    rw [h, mapRemove_eq_of_lookup_none s.pending payload.id h]
  have hfirst : ∀ (s : BridgeState) (payload : McpResponsePayload)
      (pr : PendingRequest),
      s.pending.lookup payload.id = some pr → pr.waiterAlive = true →
      mcp_bridge_respond s payload =
        (.ok (), { s with pending := mapRemove s.pending payload.id },
         some (payload.id,
           { success := payload.success, data := payload.data
             error := payload.error })) := by
    intro s payload pr h halive
    unfold mcp_bridge_respond
    rw [h]
    simp [halive]
  refine ⟨hnone, ?_, ?_⟩
  · intro s payload pr h halive
    refine ⟨hfirst s payload pr h halive, ?_⟩
    rw [hfirst s payload pr h halive]
    simp [lookup_mapRemove]
  · intro s payload pr h halive
    apply hnone
    rw [hfirst s payload pr h halive]
    simp [lookup_mapRemove]

/-- Witness for C3: in `exStateDup` (pending id `"1"`, waiter alive), the
first resolution delivers and removes; the second is an accepted no-op. -/
theorem c3_resolve_idempotent_witness :
    mcp_bridge_respond ((mcp_bridge_respond exStateDup exRespond1).2.1)
        exRespond1
      = (.ok (), (mcp_bridge_respond exStateDup exRespond1).2.1, none) :=
  c3_resolve_idempotent.2.2 exStateDup exRespond1
    { waiterAlive := true, client_id := 1 } rfl rfl

/-- C10: if a pending entry exists for the id but its waiter's oneshot
receiver has already been dropped, `mcp_bridge_respond` still removes the
entry but returns the `Response channel closed` error to the resolver, and
delivers nothing. -/
theorem c10_resolve_dead_waiter (s : BridgeState)
    (payload : McpResponsePayload) (pr : PendingRequest)
    (h : s.pending.lookup payload.id = some pr)
    (hdead : pr.waiterAlive = false) :
    mcp_bridge_respond s payload =
      (.error "Response channel closed",
       { s with pending := mapRemove s.pending payload.id }, none) ∧
    ((mcp_bridge_respond s payload).2.1).pending.lookup payload.id = none := by
  have hmain : mcp_bridge_respond s payload =
      (.error "Response channel closed",
       { s with pending := mapRemove s.pending payload.id }, none) := by
    unfold mcp_bridge_respond
    rw [h]
    simp [hdead]
  refine ⟨hmain, ?_⟩
  rw [hmain]
  simp [lookup_mapRemove]

/-- Witness for C10 at `exStateDeadWaiter`. -/
theorem c10_resolve_dead_waiter_witness :
    mcp_bridge_respond exStateDeadWaiter exRespondX =
      (.error "Response channel closed",
       { exStateDeadWaiter with
         pending := mapRemove exStateDeadWaiter.pending "x" }, none) :=
  (c10_resolve_dead_waiter exStateDeadWaiter exRespondX
    { waiterAlive := false, client_id := 1 } rfl rfl).1

/-- C4: `stop_bridge` on a state whose K pending waiters are alive and whose
J registered connections still hold their shutdown senders fires every
connection's shutdown signal, resolves every waiter with the
`success = false` / `Bridge stopped` rejection, and leaves both the client
registry and the pending table empty. -/
theorem c4_stop_drains (s : BridgeState)
    (hW : ∀ p ∈ s.pending, p.2.waiterAlive = true)
    (hS : ∀ c ∈ s.clients, c.2.shutdown = true) :
    (stop_bridge s).1.clients = [] ∧
    (stop_bridge s).1.pending = [] ∧
    (stop_bridge s).2.shutdownSignals = s.clients.map (·.1) ∧
    (stop_bridge s).2.rejections
      = s.pending.map (fun p => (p.1, bridgeStoppedResponse)) ∧
    bridgeStoppedResponse.success = false ∧
    bridgeStoppedResponse.error = some "Bridge stopped" := by
  refine ⟨rfl, rfl, ?_, ?_, rfl, rfl⟩
  · unfold stop_bridge
    simp only
    rw [List.filter_eq_self.mpr hS]
  · unfold stop_bridge
    simp only
    rw [List.filter_eq_self.mpr hW]

/-- Witness for C4 on `exStateStop` (J = 2 connections, K = 2 pending
requests). -/
theorem c4_stop_drains_witness :
    (stop_bridge exStateStop).1.clients = [] ∧
    (stop_bridge exStateStop).1.pending = [] ∧
    (stop_bridge exStateStop).2.shutdownSignals
      = exStateStop.clients.map (·.1) ∧
    (stop_bridge exStateStop).2.rejections
      = exStateStop.pending.map (fun p => (p.1, bridgeStoppedResponse)) ∧
    bridgeStoppedResponse.success = false ∧
    bridgeStoppedResponse.error = some "Bridge stopped" :=
  c4_stop_drains exStateStop
    (by intro p hp; fin_cases hp <;> rfl)
    (by intro c hc; fin_cases hc <;> rfl)

/-- C7: after a successful start returning port P the discovery file holds
exactly the decimal text of P, whatever its prior content (rewritten, not
appended); after stop the file is absent; and when the directory cannot be
created or the file cannot be written, start fails and the bridge is not
reported started (flags and file untouched). -/
theorem c7_port_file_contract :
    (∀ (env : FsEnv) (file : PortFile) (P : Nat),
       env.homeDirOk = true → env.createDirOk = true → env.writeOk = true →
       start_bridge env file (some P) = .ok (P, some (toString P))) ∧
    (∀ (st : ServerState) (bs : BridgeState) (file : PortFile),
       (mcp_bridge_stop st bs file).2.2.2.1 = none) ∧
    (∀ (st : ServerState) (env : FsEnv) (file : PortFile) (P port : Nat),
       st.bridgeRunning = false → env.homeDirOk = true →
       (env.createDirOk = false ∨ env.writeOk = false) →
       ∃ e, mcp_bridge_start st env file (some P) port = (.error e, st, file)) := by
  refine ⟨?_, ?_, ?_⟩
  · intro env file P hh hc hw
    unfold start_bridge write_port_file
    simp [hh, hc, hw]
  · intro st bs file
    rfl
  · intro st env file P port hrun hh hfail
    unfold mcp_bridge_start start_bridge write_port_file
    rcases hfail with hc | hw
    · exact ⟨"Failed to create ~/.vmark directory", by simp [hrun, hh, hc]⟩
    · rcases hc : env.createDirOk with _ | _
      · exact ⟨"Failed to create ~/.vmark directory", by simp [hrun, hh, hc]⟩
      · exact ⟨"Failed to write port file", by simp [hrun, hh, hc, hw]⟩

/-- Witness for C7: concrete round-trip at port 52301, and a concrete failed
write leaving the bridge unreported. -/
theorem c7_port_file_contract_witness :
    start_bridge ⟨true, true, true⟩ (some "old") (some 52301)
      = .ok (52301, some "52301") ∧
    (mcp_bridge_stop ⟨true, some 52301⟩ exStateStop (some "52301")).2.2.2.1
      = none ∧
    (∃ e, mcp_bridge_start ⟨false, none⟩ ⟨true, true, false⟩ none (some 7) 0
      = (.error e, ⟨false, none⟩, none)) :=
  ⟨by
     have h := c7_port_file_contract.1 ⟨true, true, true⟩ (some "old") 52301
       rfl rfl rfl
     simpa using h,
   c7_port_file_contract.2.1 ⟨true, some 52301⟩ exStateStop (some "52301"),
   c7_port_file_contract.2.2 ⟨false, none⟩ ⟨true, true, false⟩ none 7 0
     rfl rfl (Or.inr rfl)⟩

/-- C8: calling `mcp_bridge_start` while the bridge is already running
returns the stored port with `running = true`, leaves the flags and the
discovery file untouched, and never consults the bind result — no listener
is rebound and the file is not rewritten. -/
theorem c8_start_idempotent (st : ServerState) (env : FsEnv) (file : PortFile)
    (bindResult : Option Nat) (port p : Nat)
    (hrun : st.bridgeRunning = true) (hport : st.bridgePort = some p) :
    mcp_bridge_start st env file bindResult port =
      (.ok { running := true, port := some p, local_sidecar := false },
       st, file) := by
  unfold mcp_bridge_start
  simp [hrun, hport]

/-- Witness for C8: a running bridge on port 4242, `bindResult = none`
(binding would fail if attempted) — start still reports port 4242. -/
theorem c8_start_idempotent_witness :
    mcp_bridge_start ⟨true, some 4242⟩ ⟨false, false, false⟩ none none 9 =
      (.ok { running := true, port := some 4242, local_sidecar := false },
       ⟨true, some 4242⟩, none) :=
  c8_start_idempotent ⟨true, some 4242⟩ ⟨false, false, false⟩ none none 9 4242
    rfl rfl

/-- The timeout path of `handle_message`: with a successful emit and an
expired await, the pending entry inserted for the request is removed again,
no envelope reaches the client, and the handler returns the
`Request timeout` error. -/
theorem handle_message_timeout (s : BridgeState) (msg : WsMessage)
    (client_id : Nat) (request : McpRequest) (client : ClientConnection)
    (hty : msg.msg_type = "request")
    (hparse : McpRequest.from_value msg.payload = .ok request)
    (hclient : s.clients.lookup client_id = some client) :
    handle_message s msg client_id { emitOk := true, outcome := .timeout } =
      (.error "Request timeout",
       { s with pending := mapRemove (mapInsert s.pending msg.id ⟨true, client_id⟩) msg.id },
       { acquiredGate := !is_read_only_operation request.request_type
         emitted := some ⟨msg.id, request.request_type, request.args⟩
         sentToClient := [] }) := by
  unfold handle_message
  rw [hty, if_neg (show ¬ ("request" : String) = "identify" by decide),
      if_neg (show ¬ ("request" : String) ≠ "request" by decide), hparse, hclient]
  rfl

/-- The successful path of `handle_message`: with a successful emit, a timely
collaborator answer and a live outbound channel, the handler returns `Ok`,
the inserted pending entry is left in place (the resolver removed the real
one via `mcp_bridge_respond`), and the `response` envelope is pushed to this
client's channel. -/
theorem handle_message_received (s : BridgeState) (msg : WsMessage)
    (client_id : Nat) (r : McpResponse) (request : McpRequest)
    (client : ClientConnection)
    (hty : msg.msg_type = "request")
    (hparse : McpRequest.from_value msg.payload = .ok request)
    (hclient : s.clients.lookup client_id = some client)
    (htx : client.txAlive = true) :
    handle_message s msg client_id { emitOk := true, outcome := .received r } =
      (.ok (),
       { s with pending := mapInsert s.pending msg.id ⟨true, client_id⟩ },
       { acquiredGate := !is_read_only_operation request.request_type
         emitted := some ⟨msg.id, request.request_type, request.args⟩
         sentToClient := [responseEnvelope msg.id r] }) := by
  unfold handle_message
  rw [hty, if_neg (show ¬ ("request" : String) = "identify" by decide),
      if_neg (show ¬ ("request" : String) ≠ "request" by decide), hparse, hclient]
  simp [htx]

/-- Counterexample to C1 as stated: in `exStateDup` the correlation id `"1"`
is already pending for connection 1, yet handling connection 2's request with
the same id succeeds (`Ok`, no error response) and the pending slot for `"1"`
now belongs to connection 2 — the existing caller's slot was silently
overwritten. -/
theorem c1_counterexample :
    exStateDup.pending.lookup "1"
      = some { waiterAlive := true, client_id := 1 } ∧
    exWriteMsg.msg_type = "request" ∧ exWriteMsg.id = "1" ∧
    (handle_message exStateDup exWriteMsg 2 exEnvOk).1 = .ok () ∧
    ((handle_message exStateDup exWriteMsg 2 exEnvOk).2.1).pending.lookup "1"
      = some { waiterAlive := true, client_id := 2 } :=
  ⟨rfl, rfl, rfl, rfl, rfl⟩

/-- C1 (amended): an incoming request whose correlation id already exists in
the pending table is not rejected — `HashMap::insert` silently replaces the
existing entry, the new request proceeds normally (no error response), and
the pending slot for that id now belongs to the new request's connection. -/
theorem c1_duplicate_id_overwrites (s : BridgeState) (msg : WsMessage)
    (client_id : Nat) (r : McpResponse) (request : McpRequest)
    (client : ClientConnection) (old : PendingRequest)
    (hty : msg.msg_type = "request")
    (hparse : McpRequest.from_value msg.payload = .ok request)
    (hclient : s.clients.lookup client_id = some client)
    (htx : client.txAlive = true)
    (_hdup : s.pending.lookup msg.id = some old) :
    (handle_message s msg client_id { emitOk := true, outcome := .received r }).1
      = .ok () ∧
    ((handle_message s msg client_id
        { emitOk := true, outcome := .received r }).2.1).pending.lookup msg.id
      = some { waiterAlive := true, client_id := client_id } := by
  rw [handle_message_received s msg client_id r request client hty hparse
    hclient htx]
  simp [lookup_mapInsert]

/-- Witness for the amended C1 at the concrete duplicate-id input. -/
theorem c1_duplicate_id_overwrites_witness :
    (handle_message exStateDup exWriteMsg 2 exEnvOk).1 = .ok () ∧
    ((handle_message exStateDup exWriteMsg 2 exEnvOk).2.1).pending.lookup "1"
      = some { waiterAlive := true, client_id := 2 } :=
  c1_duplicate_id_overwrites exStateDup exWriteMsg 2 exOkResponse
    ⟨"selection.replace", Json.obj []⟩ exClient2
    { waiterAlive := true, client_id := 1 } rfl rfl rfl rfl rfl

/-! ### Gate-system invariant -/

/-- Every task of the initial system is in the `classify` phase. -/
theorem initGateSys_phase (spec : List (Nat × Bool)) (t : Nat)
    (task : GateTask) (h : (initGateSys spec).tasks.lookup t = some task) :
    task.phase = Phase.classify := by
  induction spec with
  | nil => simp [initGateSys, List.lookup] at h
  | cons p rest ih =>
    simp only [initGateSys, List.map] at h ih
    rw [lookup_cons] at h
    by_cases ht : t = p.1
    · rw [if_pos ht] at h
      cases h
      rfl
    · rw [if_neg ht] at h
      exact ih h

/-- The initial system satisfies the combined invariant. -/
theorem gateSysInv_init (spec : List (Nat × Bool)) :
    GateSysInv (initGateSys spec) := by
  refine ⟨?_, ?_, ?_⟩
  · intro t task h hcrit
    rw [initGateSys_phase spec t task h] at hcrit
    cases hcrit
  · intro t h
    cases h
  · intro t task h _
    rw [initGateSys_phase spec t task h]
    exact ⟨by decide, by decide⟩

/-- Every interleaving step preserves the combined invariant. -/
theorem gateSysInv_step {s s' : GateSys} (hinv : GateSysInv s)
    (hstep : GateStep s s') : GateSysInv s' := by
  obtain ⟨inv1, inv2, inv3⟩ := hinv
  cases hstep with
  | classifyRead t task hl hread hph =>
    refine ⟨?_, ?_, ?_⟩
    · intro t' task' h' hcrit'
      rw [lookup_mapInsert] at h'
      by_cases ht : t' = t
      · rw [if_pos ht] at h'
        cases h'
        cases hcrit'
      · rw [if_neg ht] at h'
        exact inv1 t' task' h' hcrit'
    · intro u hu
      obtain ⟨tu, hlu, hcu⟩ := inv2 u hu
      by_cases ht : u = t
      · subst ht
        rw [hl] at hlu
        cases hlu
        rw [hph] at hcu
        cases hcu
      · exact ⟨tu, by rw [lookup_mapInsert, if_neg ht]; exact hlu, hcu⟩
    · intro t' task' h' hread'
      rw [lookup_mapInsert] at h'
      by_cases ht : t' = t
      · rw [if_pos ht] at h'
        cases h'
        exact ⟨by simp, by simp⟩
      · rw [if_neg ht] at h'
        exact inv3 t' task' h' hread'
  | classifyWrite t task hl hread hph =>
    refine ⟨?_, ?_, ?_⟩
    · intro t' task' h' hcrit'
      rw [lookup_mapInsert] at h'
      by_cases ht : t' = t
      · rw [if_pos ht] at h'
        cases h'
        cases hcrit'
      · rw [if_neg ht] at h'
        exact inv1 t' task' h' hcrit'
    · intro u hu
      obtain ⟨tu, hlu, hcu⟩ := inv2 u hu
      by_cases ht : u = t
      · subst ht
        rw [hl] at hlu
        cases hlu
        rw [hph] at hcu
        cases hcu
      · exact ⟨tu, by rw [lookup_mapInsert, if_neg ht]; exact hlu, hcu⟩
    · intro t' task' h' hread'
      rw [lookup_mapInsert] at h'
      by_cases ht : t' = t
      · rw [if_pos ht] at h'
        cases h'
        simp only at hread'
        rw [hread] at hread'
        cases hread'
      · rw [if_neg ht] at h'
        exact inv3 t' task' h' hread'
  | acquire t task hl hph hlock =>
    refine ⟨?_, ?_, ?_⟩
    · intro t' task' h' hcrit'
      rw [lookup_mapInsert] at h'
      by_cases ht : t' = t
      · rw [ht]
      · rw [if_neg ht] at h'
        rw [inv1 t' task' h' hcrit'] at hlock
        cases hlock
    · intro u hu
      have hut : u = t := by
        simpa using hu.symm
      subst hut
      exact ⟨{ task with phase := Phase.critical },
        by rw [lookup_mapInsert, if_pos rfl], rfl⟩
    · intro t' task' h' hread'
      rw [lookup_mapInsert] at h'
      by_cases ht : t' = t
      · rw [if_pos ht] at h'
        cases h'
        simp only at hread'
        have := (inv3 t task hl hread').1
        exact absurd hph this
      · rw [if_neg ht] at h'
        exact inv3 t' task' h' hread'
  | releaseWrite t task hl hph hlock =>
    refine ⟨?_, ?_, ?_⟩
    · intro t' task' h' hcrit'
      rw [lookup_mapInsert] at h'
      by_cases ht : t' = t
      · rw [if_pos ht] at h'
        cases h'
        cases hcrit'
      · rw [if_neg ht] at h'
        have := inv1 t' task' h' hcrit'
        rw [hlock] at this
        cases this
        exact absurd rfl ht
    · intro u hu
      cases hu
    · intro t' task' h' hread'
      rw [lookup_mapInsert] at h'
      by_cases ht : t' = t
      · rw [if_pos ht] at h'
        cases h'
        exact ⟨by simp, by simp⟩
      · rw [if_neg ht] at h'
        exact inv3 t' task' h' hread'
  | finishRead t task hl hph =>
    refine ⟨?_, ?_, ?_⟩
    · intro t' task' h' hcrit'
      rw [lookup_mapInsert] at h'
      by_cases ht : t' = t
      · rw [if_pos ht] at h'
        cases h'
        cases hcrit'
      · rw [if_neg ht] at h'
        exact inv1 t' task' h' hcrit'
    · intro u hu
      obtain ⟨tu, hlu, hcu⟩ := inv2 u hu
      by_cases ht : u = t
      · subst ht
        rw [hl] at hlu
        cases hlu
        rw [hph] at hcu
        cases hcu
      · exact ⟨tu, by rw [lookup_mapInsert, if_neg ht]; exact hlu, hcu⟩
    · intro t' task' h' hread'
      rw [lookup_mapInsert] at h'
      by_cases ht : t' = t
      · rw [if_pos ht] at h'
        cases h'
        exact ⟨by simp, by simp⟩
      · rw [if_neg ht] at h'
        exact inv3 t' task' h' hread'

/-- The combined invariant holds in every reachable state. -/
theorem gateSysInv_reachable {s0 s : GateSys} (h0 : GateSysInv s0)
    (h : GateReachable s0 s) : GateSysInv s := by
  induction h with
  | refl => exact h0
  | tail _ hstep ih => exact gateSysInv_step ih hstep

/-- C9: in every state reachable by any interleaving, at most one task is in
its mutating phase (writes are mutually exclusive system-wide); a
read-classified task is never waiting for or holding the gate; and a read
task's steps are enabled whatever the lock's value, and leave it unchanged —
reads run concurrently with anything. -/
theorem c9_write_mutual_exclusion :
    (∀ (spec : List (Nat × Bool)) (s : GateSys),
       GateReachable (initGateSys spec) s →
       ∀ t1 t2, inCritical s t1 → inCritical s t2 → t1 = t2) ∧
    (∀ (spec : List (Nat × Bool)) (s : GateSys),
       GateReachable (initGateSys spec) s →
       ∀ t task, s.tasks.lookup t = some task → task.isRead = true →
         task.phase ≠ Phase.waitGate ∧ task.phase ≠ Phase.critical ∧
         s.lock ≠ some t) ∧
    (∀ (s : GateSys) (t : Nat) (task : GateTask) (l : Option Nat),
       s.tasks.lookup t = some task → task.isRead = true →
       task.phase = Phase.classify ∨ task.phase = Phase.reading →
       ∃ s', GateStep { s with lock := l } s' ∧ s'.lock = l) := by
  refine ⟨?_, ?_, ?_⟩
  · intro spec s hreach t1 t2 hc1 hc2
    have hinv := gateSysInv_reachable (gateSysInv_init spec) hreach
    obtain ⟨task1, hl1, hph1⟩ := hc1
    obtain ⟨task2, hl2, hph2⟩ := hc2
    have h1 := hinv.1 t1 task1 hl1 hph1
    have h2 := hinv.1 t2 task2 hl2 hph2
    rw [h1] at h2
    cases h2
    rfl
  · intro spec s hreach t task hl hread
    have hinv := gateSysInv_reachable (gateSysInv_init spec) hreach
    obtain ⟨hw, hc⟩ := hinv.2.2 t task hl hread
    refine ⟨hw, hc, ?_⟩
    intro hlock
    obtain ⟨tu, hlu, hcu⟩ := hinv.2.1 t hlock
    rw [hl] at hlu
    cases hlu
    exact hc hcu
  · intro s t task l hl hread hph
    rcases hph with hph | hph
    · exact ⟨_, GateStep.classifyRead { s with lock := l } t task hl hread hph,
        rfl⟩
    · exact ⟨_, GateStep.finishRead { s with lock := l } t task hl hph, rfl⟩

/-- Witness for C9: with two write tasks, the state after task 0 classifies
and acquires the gate is reachable, task 0 is in its mutating phase there,
and any two tasks in a mutating phase in that state coincide. -/
theorem c9_write_mutual_exclusion_witness :
    GateReachable exGate0 exGate2 ∧ inCritical exGate2 0 ∧
    (∀ t1 t2, inCritical exGate2 t1 → inCritical exGate2 t2 → t1 = t2) := by
  have step1 : GateStep exGate0 exGate1 :=
    GateStep.classifyWrite exGate0 0 ⟨false, Phase.classify⟩ rfl rfl rfl
  have step2 : GateStep exGate1 exGate2 :=
    GateStep.acquire exGate1 0 ⟨false, Phase.waitGate⟩ rfl rfl rfl
  have hreach : GateReachable exGate0 exGate2 :=
    Relation.ReflTransGen.tail
      (Relation.ReflTransGen.tail Relation.ReflTransGen.refl step1) step2
  exact ⟨hreach, ⟨⟨false, Phase.critical⟩, rfl, rfl⟩,
    c9_write_mutual_exclusion.1 exGateSpec exGate2 hreach⟩

/-- C2: the wait bound is the fixed 10 seconds; a collaborator that never
answers yields the timeout outcome; on that outcome the handler removes the
request's pending entry and returns the `Request timeout` error to the
issuing connection's handler; and (in the interleaving model) a task whose
handler has returned never holds the write gate — the scoped guard was
released. -/
theorem c2_timeout_bound :
    REQUEST_TIMEOUT_SECS = 10 ∧
    awaitOutcomeOf none = AwaitOutcome.timeout ∧
    (∀ (s : BridgeState) (msg : WsMessage) (client_id : Nat)
       (request : McpRequest) (client : ClientConnection),
       msg.msg_type = "request" →
       McpRequest.from_value msg.payload = .ok request →
       s.clients.lookup client_id = some client →
       (handle_message s msg client_id
          { emitOk := true, outcome := .timeout }).1
         = .error "Request timeout" ∧
       ((handle_message s msg client_id
          { emitOk := true, outcome := .timeout }).2.1).pending.lookup msg.id
         = none) ∧
    (∀ (spec : List (Nat × Bool)) (s : GateSys),
       GateReachable (initGateSys spec) s →
       ∀ t task, s.tasks.lookup t = some task → task.phase = Phase.done →
         s.lock ≠ some t) := by
  refine ⟨rfl, rfl, ?_, ?_⟩
  · intro s msg client_id request client hty hparse hclient
    rw [handle_message_timeout s msg client_id request client hty hparse
      hclient]
    refine ⟨rfl, ?_⟩
    simp [lookup_mapRemove]
  · intro spec s hreach t task hl hdone hlock
    have hinv := gateSysInv_reachable (gateSysInv_init spec) hreach
    obtain ⟨tu, hlu, hcu⟩ := hinv.2.1 t hlock
    rw [hl] at hlu
    cases hlu
    rw [hdone] at hcu
    cases hcu

/-- Witness for C2: a concrete write request whose collaborator never
answers times out, leaves no pending entry, and the task that timed out does
not hold the gate in the reachable post-release state. -/
theorem c2_timeout_bound_witness :
    (handle_message exState1 exWriteMsg 1 exEnvTimeout).1
      = .error "Request timeout" ∧
    ((handle_message exState1 exWriteMsg 1 exEnvTimeout).2.1).pending.lookup "1"
      = none ∧
    GateReachable exGate0 exGate3 ∧ exGate3.lock ≠ some 0 := by
  have step1 : GateStep exGate0 exGate1 :=
    GateStep.classifyWrite exGate0 0 ⟨false, Phase.classify⟩ rfl rfl rfl
  have step2 : GateStep exGate1 exGate2 :=
    GateStep.acquire exGate1 0 ⟨false, Phase.waitGate⟩ rfl rfl rfl
  have step3 : GateStep exGate2 exGate3 :=
    GateStep.releaseWrite exGate2 0 ⟨false, Phase.critical⟩ rfl rfl rfl
  have hreach : GateReachable exGate0 exGate3 :=
    Relation.ReflTransGen.tail
      (Relation.ReflTransGen.tail
        (Relation.ReflTransGen.tail Relation.ReflTransGen.refl step1) step2)
      step3
  have hmain := c2_timeout_bound.2.2.1 exState1 exWriteMsg 1
    ⟨"selection.replace", Json.obj []⟩ exClient rfl rfl rfl
  exact ⟨hmain.1, hmain.2, hreach,
    c2_timeout_bound.2.2.2 exGateSpec exGate3 hreach 0
      ⟨false, Phase.done⟩ rfl rfl⟩

/-- `runRegOps` assigns exactly the consecutive ids starting at the counter,
and advances the counter by the number of registrations; removals change
neither. -/
theorem runRegOps_assigned (ops : List RegOp) : ∀ (s : BridgeState),
    (runRegOps s ops).2 = List.range' s.next_client_id (countRegisters ops) ∧
    (runRegOps s ops).1.next_client_id
      = s.next_client_id + countRegisters ops := by
  induction ops with
  | nil =>
    intro s
    exact ⟨rfl, (Nat.add_zero _).symm⟩
  | cons op rest ih =>
    intro s
    cases op with
    | register =>
      have hcount : countRegisters (RegOp.register :: rest)
          = countRegisters rest + 1 := rfl
      have h := ih { s with
        next_client_id := s.next_client_id + 1
        clients := mapInsert s.clients s.next_client_id
          { id := s.next_client_id, txAlive := true, shutdown := true
            identity := none } }
      simp only [runRegOps, applyRegOp, registerClient] at h ⊢
      rw [hcount, h.1, h.2]
      exact ⟨rfl, by omega⟩
    | remove id =>
      have hcount : countRegisters (RegOp.remove id :: rest)
          = countRegisters rest := rfl
      have h := ih (removeClient s id)
      simp only [runRegOps, applyRegOp, removeClient] at h ⊢
      rw [hcount, h.1, h.2]
      exact ⟨rfl, rfl⟩

/-- C5: over any sequence of registrations and removals starting from the
initial state, the assigned connection ids are exactly `1, 2, …, k` in
order — they start at 1, are strictly increasing, and are never reused (all
distinct), even across removals. -/
theorem c5_connection_ids (ops : List RegOp) :
    (runRegOps initialBridgeState ops).2
      = List.range' 1 (countRegisters ops) ∧
    List.Pairwise (· < ·) (runRegOps initialBridgeState ops).2 ∧
    (runRegOps initialBridgeState ops).2.Nodup ∧
    (∀ i ∈ (runRegOps initialBridgeState ops).2, 1 ≤ i) := by
  have hrange := (runRegOps_assigned ops initialBridgeState).1
  refine ⟨hrange, ?_, ?_, ?_⟩
  · rw [hrange]
    exact List.pairwise_lt_range' 1 _
  · rw [hrange]
    exact (List.pairwise_lt_range' 1 _).imp (fun hab => Nat.ne_of_lt hab)
  · rw [hrange]
    intro i hi
    exact (List.mem_range'_1.mp hi).1

/-- Witness for C5: register, register, remove connection 1, register — the
assigned ids are `[1, 2, 3]`: id 1 is not reused after its removal. -/
theorem c5_connection_ids_witness :
    (runRegOps initialBridgeState
        [RegOp.register, RegOp.register, RegOp.remove 1, RegOp.register]).2
      = List.range' 1 3 ∧
    List.range' 1 3 = [1, 2, 3] ∧
    List.Pairwise (· < ·)
      (runRegOps initialBridgeState
        [RegOp.register, RegOp.register, RegOp.remove 1, RegOp.register]).2 :=
  ⟨(c5_connection_ids
      [RegOp.register, RegOp.register, RegOp.remove 1, RegOp.register]).1,
   rfl,
   (c5_connection_ids
      [RegOp.register, RegOp.register, RegOp.remove 1, RegOp.register]).2.1⟩

end VMark
